import Mathlib

/-!
Shallow embedding of the 508-workflows durable job orchestration core.

The definitions below are translated from the repository sources:
  * `packages/shared/src/five08/queue.py` (job store, transitions, enqueue),
  * `apps/worker/src/five08/worker/actors.py` (worker runner, retry backoff),
  * `apps/worker/src/five08/worker/api.py` (ingest endpoints, secret guard),
  * `apps/worker/src/five08/backend/auth.py` (OIDC state store).

Timestamps are modelled as integers supplied explicitly at each call
(`datetime.now` / SQL `NOW()` become a `now : Int` parameter), JSON documents
as an inductive `Json` value, and the `jobs` table as a list of rows.
-/

namespace Five08

/-- JSON document values, used for the `payload` JSONB column and webhook
request bodies. -/
inductive Json where
  | null
  | bool (b : Bool)
  | num (n : Int)
  | str (s : String)
  | arr (elems : List Json)
  | obj (fields : List (String × Json))

/-- Lookup of a key in a JSON object field list (first binding wins, as in a
Python dict where keys are unique). -/
def Json.lookupField : List (String × Json) → String → Option Json
  | [], _ => none
  | (k, v) :: rest, key => if k = key then some v else Json.lookupField rest key

/-- Python `payload.get(key)` on a dict; `none` when the value is not a dict. -/
def Json.get : Json → String → Option Json
  | .obj fields, key => Json.lookupField fields key
  | _, _ => none

/-- Python dict assignment `d[key] = v`: replace the existing binding for
`key` or append a new one. -/
def setEntry : List (String × Json) → String → Json → List (String × Json)
  | [], key, v => [(key, v)]
  | (k, w) :: rest, key, v =>
    if k = key then (key, v) :: rest else (k, w) :: setEntry rest key v

/-- Persistent job state values (`JobStatus` in `five08/queue.py`). -/
inductive JobStatus where
  | queued
  | running
  | succeeded
  | failed
  | dead
  | canceled
deriving DecidableEq, Repr

/-- `job_is_terminal` from `five08/queue.py`: true when the job should not be
executed again. -/
def job_is_terminal (status : JobStatus) : Bool :=
  match status with
  | .succeeded | .dead | .canceled => true
  | _ => false

/-- Row-shape view of a persisted job (`JobRecord` in `five08/queue.py`,
matching the `jobs` table of migration 20260221_0100). -/
structure JobRecord where
  id : String
  type : String
  status : JobStatus
  payload : Json
  idempotency_key : Option String
  attempts : Nat
  max_attempts : Nat
  run_after : Option Int
  locked_at : Option Int
  locked_by : Option String
  last_error : Option String
  created_at : Int
  updated_at : Int

/-- Configuration fields of `SharedSettings` (`five08/settings.py`) and
`WorkerSettings` (`five08/worker/config.py`) used by the embedded core.
Defaults are the source defaults.  `api_shared_secret` is the configured
API shared secret read by `_is_authorized`; an unset value is `none`. -/
structure Settings where
  job_max_attempts : Nat := 8
  job_retry_base_seconds : Int := 5
  job_retry_max_seconds : Int := 300
  worker_name : String := "integrations-worker"
  api_shared_secret : Option String := none
deriving DecidableEq, Repr

/-- The `jobs` table: a list of rows.  Row ids are unique in Postgres (primary
key); `create_job_record` below refuses duplicate ids like the database would. -/
abbrev JobsDb := List JobRecord

/-- `get_job` from `five08/queue.py`: load a job by id. -/
def get_job (db : JobsDb) (job_id : String) : Option JobRecord :=
  db.find? (fun row => row.id == job_id)

/-- The optional column assignments accumulated by `_mark_job` in
`five08/queue.py`.  An outer `none` is the `_UNSET` sentinel (column not
touched); for nullable columns the inner option is the SQL value written. -/
structure JobUpdate where
  status : Option JobStatus := none
  attempts : Option Nat := none
  payload : Option Json := none
  locked_at : Option (Option Int) := none
  locked_by : Option (Option String) := none
  run_after : Option (Option Int) := none
  last_error : Option (Option String) := none

/-- True when `_mark_job` collected no column updates and returns without
issuing an UPDATE. -/
def JobUpdate.isEmpty (u : JobUpdate) : Bool :=
  u.status.isNone && u.attempts.isNone && u.payload.isNone && u.locked_at.isNone
    && u.locked_by.isNone && u.run_after.isNone && u.last_error.isNone

/-- Effect of the UPDATE built by `_mark_job` on one row, including the
`updated_at = NOW()` refresh the function always appends. -/
def applyJobUpdate (now : Int) (u : JobUpdate) (row : JobRecord) : JobRecord :=
  { row with
    status := u.status.getD row.status
    attempts := u.attempts.getD row.attempts
    payload := u.payload.getD row.payload
    locked_at := u.locked_at.getD row.locked_at
    locked_by := u.locked_by.getD row.locked_by
    run_after := u.run_after.getD row.run_after
    last_error := u.last_error.getD row.last_error
    updated_at := now }

/-- `_mark_job` from `five08/queue.py`: a single unconditional
`UPDATE jobs SET ... WHERE id = %s`.  Note that it carries no check of the
current status. -/
def _mark_job (db : JobsDb) (job_id : String) (u : JobUpdate) (now : Int) :
    JobsDb :=
  if u.isEmpty then db
  else db.map (fun row => if row.id = job_id then applyJobUpdate now u row else row)

/-- `mark_job_running` from `five08/queue.py`: mark a job as actively
executing.  `locked_at` is `datetime.now`, modelled by `now`. -/
def mark_job_running (db : JobsDb) (job_id : String) (worker_name : String)
    (now : Int) : JobsDb :=
  _mark_job db job_id
    { status := some .running
      locked_at := some (some now)
      locked_by := some (some worker_name)
      run_after := some none
      last_error := some none } now

/-- `mark_job_succeeded` from `five08/queue.py`.  When a `result` is supplied
the written payload is `dict(base_payload or {})` with `result` assigned;
when `result` is `none` the payload column is left untouched. -/
def mark_job_succeeded (db : JobsDb) (job_id : String) (result : Option Json)
    (base_payload : Option (List (String × Json))) (now : Int) : JobsDb :=
  let payload : Option Json :=
    match result with
    | none => none
    | some r => some (Json.obj (setEntry (base_payload.getD []) "result" r))
  _mark_job db job_id
    { status := some .succeeded
      payload := payload
      locked_at := some none
      locked_by := some none
      run_after := some none
      last_error := some none } now

/-- `mark_job_retry` from `five08/queue.py`: record a failed retryable
attempt, clearing the lock fields and scheduling `run_after`. -/
def mark_job_retry (db : JobsDb) (job_id : String) (attempts : Nat)
    (run_after : Int) (last_error : String) (now : Int) : JobsDb :=
  _mark_job db job_id
    { status := some .failed
      attempts := some attempts
      run_after := some (some run_after)
      last_error := some (some last_error)
      locked_at := some none
      locked_by := some none } now

/-- `mark_job_dead` from `five08/queue.py`: mark a job as permanently dead. -/
def mark_job_dead (db : JobsDb) (job_id : String) (attempts : Nat)
    (last_error : String) (now : Int) : JobsDb :=
  _mark_job db job_id
    { status := some .dead
      attempts := some attempts
      run_after := some none
      last_error := some (some last_error)
      locked_at := some none
      locked_by := some none } now

/-- `create_job_record` from `five08/queue.py`.  The INSERT carries
`ON CONFLICT (idempotency_key) DO NOTHING`; per Postgres semantics a NULL
key never conflicts with anything (the `uq_jobs_idempotency_key` UNIQUE
constraint treats NULLs as distinct), so `hasConflict` requires a non-null
key equal to an existing row.  A primary-key collision on the freshly drawn
`job_id` would raise, modelled by the error branch.  Python evaluates
`max_attempts or settings.job_max_attempts`, so a supplied `0` also falls
back to the default. -/
def create_job_record (settings : Settings) (db : JobsDb) (job_id : String)
    (job_type : String) (payload : Json) (idempotency_key : Option String)
    (max_attempts : Option Nat) (run_after : Option Int) (now : Int) :
    Except String (String × Bool × JobsDb) :=
  let chosen_max : Nat :=
    match max_attempts with
    | none => settings.job_max_attempts
    | some m => if m = 0 then settings.job_max_attempts else m
  let hasConflict : Bool :=
    match idempotency_key with
    | none => false
    | some key => db.any (fun row => row.idempotency_key == some key)
  if hasConflict then
    match idempotency_key with
    | none => .error "Unable to create job row without idempotency key."
    | some key =>
      match db.find? (fun row => row.idempotency_key == some key) with
      | some existing => .ok (existing.id, false, db)
      | none => .error "Unable to load existing job for duplicate idempotency key."
  else if db.any (fun row => row.id == job_id) then
    .error "unique violation on jobs primary key"
  else
    .ok (job_id, true,
      db ++ [{ id := job_id
               type := job_type
               status := .queued
               payload := payload
               idempotency_key := idempotency_key
               attempts := 0
               max_attempts := chosen_max
               run_after := run_after
               locked_at := none
               locked_by := none
               last_error := none
               created_at := now
               updated_at := now }])

/-- Result for `enqueue_job` calls (`EnqueuedJob` in `five08/queue.py`). -/
structure EnqueuedJob where
  id : String
  created : Bool
deriving DecidableEq, Repr

/-- Observable state of the broker adapter (`QueueClient`): the sequence of
`enqueue(job_id, run_at)` dispatches it has received. -/
structure QueueState where
  dispatched : List (String × Option Int) := []
deriving DecidableEq, Repr

/-- `QueueClient.enqueue`: schedule `job_id` with optional delivery time. -/
def QueueState.enqueue (q : QueueState) (job_id : String)
    (run_at : Option Int) : QueueState :=
  { dispatched := q.dispatched ++ [(job_id, run_at)] }

/-- `enqueue_job` from `five08/queue.py`: build the payload document
`{args, kwargs}`, create or reuse the job row, and dispatch to the broker
only when the row was newly created.  `fn_name` is `fn.__name__`; `job_id`
is the uuid drawn inside `create_job_record`. -/
def enqueue_job (settings : Settings) (db : JobsDb) (q : QueueState)
    (fn_name : String) (args : List Json) (kwargs : List (String × Json))
    (idempotency_key : Option String) (max_attempts : Option Nat)
    (run_after : Option Int) (job_id : String) (now : Int) :
    Except String (EnqueuedJob × JobsDb × QueueState) :=
  let payload := Json.obj [("args", Json.arr args), ("kwargs", Json.obj kwargs)]
  match create_job_record settings db job_id fn_name payload idempotency_key
      max_attempts run_after now with
  | .error e => .error e
  | .ok (rid, created, db2) =>
    let q2 := if created then q.enqueue rid run_after else q
    .ok ({ id := rid, created := created }, db2, q2)

/-! Worker runner, from `apps/worker/src/five08/worker/actors.py`. -/

/-- The handler registry `_HANDLERS` of `actors.py`: the names of the two
registered handler functions. -/
def _HANDLERS : List String :=
  ["process_webhook_event", "process_contact_skills_job"]

/-- Outcome of a handler invocation.  Handler bodies are out of scope of the
core; a run is parameterised by an oracle assigning each invocation either a
returned result value or a raised exception (kind and message). -/
inductive HandlerOutcome where
  | success (result : Json)
  | raises (exc_kind : String) (message : String)

/-- Handler semantics oracle: handler name, positional args and keyword args
to the invocation's outcome. -/
abbrev HandlerSem := String → List Json → List (String × Json) → HandlerOutcome

/-- `_extract_call_args` from `actors.py`: convert the stored payload back
into call-site args.  The `TypeError`s it raises are returned as
`(exception kind, message)` pairs; they are raised inside the try block of
`_run_job` and therefore follow the generic failure path. -/
def _extract_call_args (job : JobRecord) :
    Except (String × String) (List Json × List (String × Json)) :=
  let raw_args := (job.payload.get "args").getD (Json.arr [])
  let raw_kwargs := (job.payload.get "kwargs").getD (Json.obj [])
  match raw_args with
  | .arr args =>
    match raw_kwargs with
    | .obj kwargs => .ok (args, kwargs)
    | _ => .error ("TypeError", "Job payload kwargs must be a dict.")
  | _ => .error ("TypeError", "Job payload args must be a list.")

/-- `_compute_retry_delay_seconds` from `actors.py`:
`min(max(1, base) * 2 ** max(attempt - 1, 0), cap)`.  `attempt : Nat`, so
Lean's truncated subtraction `attempt - 1` coincides with Python's
`max(attempt - 1, 0)`. -/
def _compute_retry_delay_seconds (settings : Settings) (attempt : Nat) : Int :=
  let base : Int := max 1 settings.job_retry_base_seconds
  let capped : Int := settings.job_retry_max_seconds
  min (base * 2 ^ (attempt - 1)) capped

/-- A delayed redelivery request sent to the broker by
`execute_job.send_with_options(args=(job_id,), delay=delay_seconds * 1000)`. -/
structure RedeliverMsg where
  job_id : String
  delay_ms : Int
deriving DecidableEq, Repr

/-- `_schedule_retry` from `actors.py`: compute the backoff delay, mark the
job retryable with `run_after = now + delay`, and request redelivery. -/
def _schedule_retry (settings : Settings) (db : JobsDb) (job_id : String)
    (attempts : Nat) (error : String) (now : Int) : JobsDb × RedeliverMsg :=
  let delay_seconds := _compute_retry_delay_seconds settings attempts
  let retry_at := now + delay_seconds
  (mark_job_retry db job_id attempts retry_at error now,
    { job_id := job_id, delay_ms := delay_seconds * 1000 })

/-- Result of one `_run_job` invocation.  `raised_unknown_type` records the
`ValueError` raised at line 91 of `actors.py`, which is outside the try
block and therefore propagates out of `_run_job` (and out of the
`execute_job` actor, which has `max_retries=0`). -/
inductive RunOutcome where
  | skipped_missing
  | skipped_terminal
  | skipped_locked
  | raised_unknown_type (message : String)
  | succeeded
  | marked_dead
  | retry_scheduled (msg : RedeliverMsg)
deriving DecidableEq, Repr

/-- The `except Exception` branch of `_run_job`: compute the next attempt
count from the job row loaded at the top of the function, and either mark
the job dead or schedule a retry. -/
def _handle_job_failure (settings : Settings) (job : JobRecord) (db : JobsDb)
    (exc_kind exc_msg : String) (now : Int) : RunOutcome × JobsDb :=
  let next_attempt := job.attempts + 1
  let error := exc_kind ++ ": " ++ exc_msg
  if job.max_attempts ≤ next_attempt then
    (.marked_dead, mark_job_dead db job.id next_attempt error now)
  else
    let step := _schedule_retry settings db job.id next_attempt error now
    (.retry_scheduled step.snd, step.fst)

/-- `_run_job` from `actors.py`: load the job, skip it when missing,
terminal, or locked by another worker; resolve the handler (an unknown type
raises `ValueError` before anything is written); claim the job; invoke the
handler; and record the outcome.  The handler return value is discarded:
the success branch calls `mark_job_succeeded(settings, job_id)` with no
result argument. -/
def _run_job (settings : Settings) (sem : HandlerSem) (db : JobsDb)
    (job_id : String) (now : Int) : RunOutcome × JobsDb :=
  match get_job db job_id with
  | none => (.skipped_missing, db)
  | some job =>
    if job_is_terminal job.status then (.skipped_terminal, db)
    else if job.status = .running ∧ job.locked_by ≠ some settings.worker_name then
      (.skipped_locked, db)
    else if job.type ∈ _HANDLERS then
      let db1 := mark_job_running db job_id settings.worker_name now
      match _extract_call_args job with
      | .error e => _handle_job_failure settings job db1 e.fst e.snd now
      | .ok (args, kwargs) =>
        match sem job.type args kwargs with
        | .success _ =>
          (.succeeded, mark_job_succeeded db1 job_id none none now)
        | .raises exc_kind message =>
          _handle_job_failure settings job db1 exc_kind message now
    else (.raised_unknown_type ("Unknown job type: " ++ job.type), db)

/-! Ingest API, from `apps/worker/src/five08/worker/api.py`. -/

/-- Value-level model of Python `secrets.compare_digest`: equality of the two
strings.  (Its constant-time execution profile is a real-time property with
no counterpart in this embedding.) -/
def compare_digest (a b : String) : Bool := a == b

/-- `_is_authorized` from `api.py`: reject when the configured
`settings.api_shared_secret` is falsy (unset or the empty string), otherwise
compare the `X-API-Secret` header (defaulting to `""` when absent) with the
secret via `secrets.compare_digest`. -/
def _is_authorized (settings : Settings) (x_api_secret : Option String) : Bool :=
  match settings.api_shared_secret with
  | none => false
  | some secret =>
    if secret = "" then false
    else compare_digest (x_api_secret.getD "") secret

/-- Python `str.strip()`: remove whitespace from both ends, computed over
the character list. -/
def pyStrip (s : String) : String :=
  String.mk
    (((s.data.dropWhile Char.isWhitespace).reverse.dropWhile
      Char.isWhitespace).reverse)

/-- `_extract_idempotency_key` from `api.py`: a non-blank string value is
stripped and used; anything else yields no key. -/
def _extract_idempotency_key (value : Option Json) : Option String :=
  match value with
  | some (.str s) => if pyStrip s = "" then none else some (pyStrip s)
  | _ => none

/-- One persisted audit event, as far as the embedded claims need it
(`AuditEventInput` in `five08/audit.py`). -/
structure AuditEvent where
  source : String
  action : String
  result : String
  actor_subject : String
deriving DecidableEq, Repr

/-- Outcome of `await request.json()` followed by the handler's own shape
checks: the body either failed to parse or produced a JSON value. -/
inductive RequestBody where
  | invalid_json
  | json (value : Json)

/-- HTTP response produced by an ingest endpoint: status code, the `error`
tag of an error body, and the `job_id` of a queued body. -/
structure IngestResponse where
  status_code : Nat
  error : Option String := none
  job_id : Option String := none
deriving DecidableEq, Repr

/-- Full observable effect of one ingest request: the response, the job
table, the broker state, and every audit event written while handling the
request. -/
structure IngestEffects where
  response : IngestResponse
  db : JobsDb
  queue : QueueState
  audit_events : List AuditEvent

/-- `ingest_handler` from `api.py` (POST `/webhooks/{source}`): authorize via
the shared secret, parse the body, require a JSON object, extract the `id`
field as idempotency seed, and enqueue `process_webhook_event` with
`(source, payload)`.  The function body contains no `insert_audit_event`
call (its only side output besides the store and broker is `logger` calls),
so `audit_events` is empty on every path.  A store or broker exception
surfaces as an unhandled 500. -/
def ingest_handler (settings : Settings) (db : JobsDb) (q : QueueState)
    (x_api_secret : Option String) (source : String) (body : RequestBody)
    (fresh_job_id : String) (now : Int) : IngestEffects :=
  if !_is_authorized settings x_api_secret then
    { response := { status_code := 401, error := some "unauthorized" }
      db := db, queue := q, audit_events := [] }
  else
    match body with
    | .invalid_json =>
      { response := { status_code := 400, error := some "invalid_json" }
        db := db, queue := q, audit_events := [] }
    | .json payload =>
      match payload with
      | .obj fields =>
        match enqueue_job settings db q "process_webhook_event"
            [Json.str source, payload] []
            (_extract_idempotency_key (Json.lookupField fields "id"))
            none none fresh_job_id now with
        | .ok (job, db2, q2) =>
          { response := { status_code := 202, job_id := some job.id }
            db := db2, queue := q2, audit_events := [] }
        | .error _ =>
          { response := { status_code := 500, error := some "internal_server_error" }
            db := db, queue := q, audit_events := [] }
      | _ =>
        { response := { status_code := 400, error := some "payload_must_be_object" }
          db := db, queue := q, audit_events := [] }

/-- `job_status_handler`'s result extraction (`api.py` lines 597-600): the
`result` key of the payload document when the payload is a dict holding
one, else `None`. -/
def job_status_result (job : JobRecord) : Option Json :=
  job.payload.get "result"

/-! Session and OIDC-state store, from
`apps/worker/src/five08/backend/auth.py`. -/

/-- `PendingOIDCState`: transient login state persisted server-side between
login and callback. -/
structure PendingOIDCState where
  nonce : String
  code_verifier : String
  next_path : String
  discord_link_token : Option String := none
deriving DecidableEq, Repr

/-- `AuthSession`: server-side session payload for authenticated dashboard
requests. -/
structure AuthSession where
  subject : String
  email : Option String
  display_name : Option String
  groups : List String
  is_admin : Bool
  id_token : String
  expires_at : Int
deriving DecidableEq, Repr

/-- `DiscordLinkGrant`: one-time link grant created from a Discord command
context. -/
structure DiscordLinkGrant where
  discord_user_id : String
  next_path : String
deriving DecidableEq, Repr

/-- Redis key for a pending OIDC state (`RedisAuthStore._oidc_state_key`). -/
def _oidc_state_key (state : String) : String := "auth:oidc-state:" ++ state

/-- Lookup by key in a keyed store modelled as an association list (Redis
keys are unique; the first binding is the binding). -/
def storeLookup {α : Type} (entries : List (String × α)) (key : String) :
    Option α :=
  match entries.find? (fun kv => kv.fst == key) with
  | some kv => some kv.snd
  | none => none

/-- Key deletion in a keyed store (Redis `DEL` / the delete half of
`GETDEL`). -/
def storeDelete {α : Type} (entries : List (String × α)) (key : String) :
    List (String × α) :=
  entries.filter (fun kv => kv.fst != key)

/-- Key assignment in a keyed store (Redis `SETEX`; the TTL argument has no
counterpart in the untimed embedding). -/
def storeSet {α : Type} (entries : List (String × α)) (key : String) (v : α) :
    List (String × α) :=
  storeDelete entries key ++ [(key, v)]

/-- `RedisAuthStore` contents: the three keyed maps it manages.  Keys are
the raw Redis keys produced by the `_..._key` helpers. -/
structure AuthStore where
  oidc_states : List (String × PendingOIDCState) := []
  sessions : List (String × AuthSession) := []
  discord_links : List (String × DiscordLinkGrant) := []

/-- `RedisAuthStore.save_oidc_state`. -/
def save_oidc_state (store : AuthStore) (state : String)
    (payload : PendingOIDCState) : AuthStore :=
  { store with oidc_states := storeSet store.oidc_states (_oidc_state_key state) payload }

/-- `RedisAuthStore.pop_oidc_state`: one atomic Redis `GETDEL` of the state
key (`_redis_getdel`), returning the parsed pending state when the key was
present and removing it from the store in the same step. -/
def pop_oidc_state (store : AuthStore) (state : String) :
    Option PendingOIDCState × AuthStore :=
  let key := _oidc_state_key state
  match storeLookup store.oidc_states key with
  | none => (none, store)
  | some pending =>
    (some pending, { store with oidc_states := storeDelete store.oidc_states key })

/-- Response of `auth_callback_handler`: either an early JSON error response
or the final 302 redirect. -/
inductive CallbackResponse where
  | error_response (status_code : Nat) (error : String)
  | redirect (location : String)
deriving DecidableEq, Repr

/-- Observable result of one `auth_callback_handler` request: the response,
the auth store afterwards, and whether `store.save_session` was called. -/
structure CallbackResult where
  response : CallbackResponse
  store : AuthStore
  session_created : Bool

/-- The tail of `auth_callback_handler` (`api.py` lines 814-973), entered
only after the pending state has been consumed: token exchange, id-token
validation, the Discord deep-link checks, session creation, redirect, and
the login audit write.  Against the auth store that code only reads and
deletes Discord links and saves a session; it never writes an OIDC state,
so it is abstracted as a function of the pending state over the session and
link maps, returning the response, the two updated maps, and whether a
session was saved. -/
abbrev CallbackRest :=
  PendingOIDCState → List (String × AuthSession) →
    List (String × DiscordLinkGrant) →
      CallbackResponse × List (String × AuthSession) ×
        List (String × DiscordLinkGrant) × Bool

/-- `auth_callback_handler` from `api.py` up to and including the pending
state consumption: missing or empty `code`/`state` is a 400, an unready
store or unconfigured OIDC client is a 503, and a state with no persisted
entry is rejected as `invalid_state` before any session work happens.
When the pop succeeds, the remainder of the handler runs as `rest`. -/
def auth_callback_handler (store_ready oidc_configured : Bool)
    (rest : CallbackRest) (store : AuthStore) (code state : Option String) :
    CallbackResult :=
  if code.getD "" = "" ∨ state.getD "" = "" then
    { response := .error_response 400 "missing_code_or_state"
      store := store, session_created := false }
  else if !store_ready then
    { response := .error_response 503 "auth_not_ready"
      store := store, session_created := false }
  else if !oidc_configured then
    { response := .error_response 503 "oidc_not_configured"
      store := store, session_created := false }
  else
    let popped := pop_oidc_state store (state.getD "")
    match popped.fst with
    | none =>
      { response := .error_response 400 "invalid_state"
        store := popped.snd, session_created := false }
    | some pending =>
      let r := rest pending popped.snd.sessions popped.snd.discord_links
      { response := r.fst
        store := { popped.snd with sessions := r.snd.fst, discord_links := r.snd.snd.fst }
        session_created := r.snd.snd.snd }

/-! Store-level transition system: the write operations `queue.py` exposes
against the `jobs` table, used to state lifecycle invariants. -/

/-- One write against the job store: the five mutating entry points of
`five08/queue.py`. -/
inductive StoreOp where
  | create (job_id job_type : String) (payload : Json)
      (idempotency_key : Option String) (max_attempts : Option Nat)
      (run_after : Option Int) (now : Int)
  | mark_running (job_id worker_name : String) (now : Int)
  | mark_succeeded (job_id : String) (result : Option Json)
      (base_payload : Option (List (String × Json))) (now : Int)
  | mark_retry (job_id : String) (attempts : Nat) (run_after : Int)
      (last_error : String) (now : Int)
  | mark_dead (job_id : String) (attempts : Nat) (last_error : String)
      (now : Int)

/-- Apply one store operation.  A `create` whose INSERT raises (duplicate
primary key) leaves the table unchanged, as an aborted statement would. -/
def applyStoreOp (settings : Settings) (db : JobsDb) (op : StoreOp) : JobsDb :=
  match op with
  | .create jid jt p key ma ra now =>
    match create_job_record settings db jid jt p key ma ra now with
    | .ok r => r.snd.snd
    | .error _ => db
  | .mark_running jid w now => mark_job_running db jid w now
  | .mark_succeeded jid res base now => mark_job_succeeded db jid res base now
  | .mark_retry jid a ra e now => mark_job_retry db jid a ra e now
  | .mark_dead jid a e now => mark_job_dead db jid a e now

/-- Run a sequence of store operations from a starting table. -/
def applyStoreOps (settings : Settings) (db : JobsDb) (ops : List StoreOp) :
    JobsDb :=
  ops.foldl (applyStoreOp settings) db

/-- Lock-field consistency of one row: the lock columns `locked_by` and
`locked_at` are populated exactly when the status is `running`. -/
def lock_fields_consistent (row : JobRecord) : Bool :=
  (row.status == .running) == (row.locked_by.isSome && row.locked_at.isSome)

/-! Sequences of enqueue calls, used to state the idempotency claims. -/

/-- Per-call inputs of one `enqueue_job` invocation in a sequence sharing a
single idempotency key: everything except the key itself.  `job_id` is the
uuid drawn inside that call's `create_job_record`. -/
structure EnqueueCall where
  fn_name : String
  args : List Json
  kwargs : List (String × Json)
  max_attempts : Option Nat := none
  run_after : Option Int := none
  job_id : String
  now : Int

/-- Run a sequence of `enqueue_job` calls that all supply the same
idempotency key, collecting each call's result. -/
def enqueue_seq (settings : Settings) (key : Option String)
    (calls : List EnqueueCall) (db : JobsDb) (q : QueueState) :
    List (Except String EnqueuedJob) × JobsDb × QueueState :=
  match calls with
  | [] => ([], db, q)
  | c :: rest =>
    match enqueue_job settings db q c.fn_name c.args c.kwargs key
        c.max_attempts c.run_after c.job_id c.now with
    | .error e =>
      match enqueue_seq settings key rest db q with
      | (results, db2, q2) => (.error e :: results, db2, q2)
    | .ok (job, db2, q2) =>
      match enqueue_seq settings key rest db2 q2 with
      | (results, db3, q3) => (.ok job :: results, db3, q3)

/-! Shared helper lemmas. -/

/-- Every `_mark_job` update preserves the row id. -/
theorem applyJobUpdate_id (now : Int) (u : JobUpdate) (row : JobRecord) :
    (applyJobUpdate now u row).id = row.id := rfl

/-- A looked-up job carries the id it was looked up by. -/
theorem get_job_eq_id (db : JobsDb) (job_id : String) (job : JobRecord)
    (h : get_job db job_id = some job) : job.id = job_id := by
  unfold get_job at h
  have hb := List.find?_some h
  exact eq_of_beq hb

/-- `find?` commutes with mapping a function that does not change the
predicate's verdict. -/
theorem find?_map_of_pred_eq {α : Type} (f : α → α) (p : α → Bool)
    (l : List α) (hp : ∀ a, p (f a) = p a) :
    (l.map f).find? p = (l.find? p).map f := by
  induction l with
  | nil => rfl
  | cons a t ih =>
    by_cases h : p a
    · rw [List.map_cons, List.find?_cons_of_pos _ ((hp a).trans h),
        List.find?_cons_of_pos _ h, Option.map_some']
    · have hfa : ¬ p (f a) = true := by rw [hp a]; exact h
      rw [List.map_cons, List.find?_cons_of_neg _ hfa,
        List.find?_cons_of_neg _ h, ih]

/-- Reading any id after a `_mark_job` UPDATE sees the per-row effect of the
update. -/
theorem get_job_mark_job (db : JobsDb) (target : String) (u : JobUpdate)
    (now : Int) (q : String) (hne : u.isEmpty = false) :
    get_job (_mark_job db target u now) q =
      (get_job db q).map
        (fun row => if row.id = target then applyJobUpdate now u row else row) := by
  unfold _mark_job
  rw [hne]
  simp only [Bool.false_eq_true, if_false]
  unfold get_job
  refine find?_map_of_pred_eq _ _ db (fun row => ?_)
  by_cases h : row.id = target <;> simp [h, applyJobUpdate_id]

/-- Reading the updated id after a `_mark_job` UPDATE sees the updated row. -/
theorem get_job_mark_job_self (db : JobsDb) (job_id : String) (u : JobUpdate)
    (now : Int) (job : JobRecord) (hne : u.isEmpty = false)
    (h : get_job db job_id = some job) :
    get_job (_mark_job db job_id u now) job_id =
      some (applyJobUpdate now u job) := by
  rw [get_job_mark_job db job_id u now job_id hne, h, Option.map_some',
    if_pos (get_job_eq_id db job_id job h)]

/-! Claim C9: the shared-secret guard fails closed and compares the header
against the configured secret. -/

/-- C9: for every request to a shared-secret-guarded endpoint, an unset or
empty configured `api_shared_secret` makes `_is_authorized` reject the
request whatever header was supplied; when a non-empty secret is
configured, the verdict is exactly the `compare_digest` comparison of the
provided `X-API-Secret` header with the secret. -/
theorem C9_shared_secret_guard (settings : Settings) (hdr : Option String) :
    (settings.api_shared_secret.getD "" = "" →
      _is_authorized settings hdr = false) ∧
    (∀ secret, settings.api_shared_secret = some secret → secret ≠ "" →
      _is_authorized settings hdr = compare_digest (hdr.getD "") secret) := by
  constructor
  · intro h
    unfold _is_authorized
    cases hs : settings.api_shared_secret with
    | none => rfl
    | some s =>
      rw [hs] at h
      simp only [Option.getD_some] at h
      simp [h]
  · intro secret hsec hne
    unfold _is_authorized
    rw [hsec]
    simp [hne]

/-- Witness for C9 at concrete inputs: a missing secret rejects, and a
configured secret compares the header by digest comparison. -/
theorem C9_shared_secret_guard_witness :
    _is_authorized { api_shared_secret := none } (some "whatever") = false ∧
    _is_authorized { api_shared_secret := some "s3cret" } (some "s3cret") =
      compare_digest "s3cret" "s3cret" :=
  ⟨(C9_shared_secret_guard { api_shared_secret := none } (some "whatever")).1 rfl,
   (C9_shared_secret_guard { api_shared_secret := some "s3cret" }
      (some "s3cret")).2 "s3cret" rfl (by decide)⟩

/-! Claim C1: delivery of a job whose type has no registered handler. -/

/-- A queued job whose `type` names no registered handler, as inserted
directly into the store (spec scenario 4). -/
def unknownTypeJob : JobRecord :=
  { id := "job-u1"
    type := "nonexistent"
    status := .queued
    payload := Json.obj [("args", Json.arr []), ("kwargs", Json.obj [])]
    idempotency_key := none
    attempts := 0
    max_attempts := 8
    run_after := none
    locked_at := none
    locked_by := none
    last_error := none
    created_at := 0
    updated_at := 0 }

/-- C1: delivering a job of unregistered type does not transition it to
`dead`.  `_run_job` raises `ValueError` (line 91 of `actors.py`, outside
the try block, so it propagates out of the worker's job-execution
function), the table is left untouched, and the job's status is still
`queued`, never `dead`; no unknown-type error is recorded. -/
theorem C1_unknown_type_raises_and_leaves_job_queued :
    (_run_job {} (fun _ _ _ => .success Json.null) [unknownTypeJob] "job-u1" 100).fst =
      .raised_unknown_type "Unknown job type: nonexistent" ∧
    (_run_job {} (fun _ _ _ => .success Json.null) [unknownTypeJob] "job-u1" 100).snd =
      [unknownTypeJob] ∧
    (get_job (_run_job {} (fun _ _ _ => .success Json.null) [unknownTypeJob]
        "job-u1" 100).snd "job-u1").map JobRecord.status = some .queued ∧
    (get_job (_run_job {} (fun _ _ _ => .success Json.null) [unknownTypeJob]
        "job-u1" 100).snd "job-u1").map JobRecord.last_error = some none := by
  refine ⟨rfl, rfl, rfl, rfl⟩

/-! Claim C6: the retry backoff schedule. -/

/-- Counterexample to C6 as stated: with a configured
`job_retry_base_seconds = 0` the code clamps the base to 1
(`max(1, base)` in `_compute_retry_delay_seconds`), so the first retry
delay is 1 second, not `min(base * 2^(next_attempts - 1), cap) = 0`. -/
theorem C6_counterexample :
    _compute_retry_delay_seconds { job_retry_base_seconds := 0 } 1 ≠
      min (Settings.job_retry_base_seconds { job_retry_base_seconds := 0 } *
        2 ^ (1 - 1)) (Settings.job_retry_max_seconds { job_retry_base_seconds := 0 }) := by
  decide

/-! Claim C5: audit events written by privileged ingest requests. -/

/-- C5 (amended): the secret-guarded webhook ingest endpoint writes no audit
event on any path, whatever the outcome (success, denied, or error). -/
theorem C5_ingest_writes_no_audit_events (settings : Settings) (db : JobsDb)
    (q : QueueState) (x_api_secret : Option String) (source : String)
    (body : RequestBody) (fresh_job_id : String) (now : Int) :
    (ingest_handler settings db q x_api_secret source body
      fresh_job_id now).audit_events = [] := by
  unfold ingest_handler
  repeat' split
  all_goals rfl

/-- Ingest settings with a configured shared secret, for concrete runs. -/
def exSecretSettings : Settings := { api_shared_secret := some "s3cret" }

/-- Counterexample to C5 as stated: a successful privileged webhook request
(valid secret, JSON object body, job enqueued and dispatched) produces
zero audit events. -/
theorem C5_counterexample :
    (ingest_handler exSecretSettings [] {} (some "s3cret") "github"
      (.json (Json.obj [("id", Json.str "evt-1")])) "job-1" 0).response.status_code = 202 ∧
    (ingest_handler exSecretSettings [] {} (some "s3cret") "github"
      (.json (Json.obj [("id", Json.str "evt-1")])) "job-1" 0).queue.dispatched =
      [("job-1", none)] ∧
    (ingest_handler exSecretSettings [] {} (some "s3cret") "github"
      (.json (Json.obj [("id", Json.str "evt-1")])) "job-1" 0).audit_events = [] := by
  refine ⟨by decide, by decide, by decide⟩

/-! Claim C2: stickiness of terminal statuses. -/

/-- A job row that an external operator has set to `canceled` (no code path
in the repository writes `canceled`; the status arrives via a direct
UPDATE, as §4.6 of the spec describes). -/
def canceledJob : JobRecord :=
  { id := "job-c1"
    type := "process_webhook_event"
    status := .canceled
    payload := Json.obj [("args", Json.arr []), ("kwargs", Json.obj [])]
    idempotency_key := none
    attempts := 1
    max_attempts := 8
    run_after := none
    locked_at := none
    locked_by := none
    last_error := none
    created_at := 0
    updated_at := 0 }

/-- Counterexample to C2 as stated: the transition operations are
unconditional UPDATEs.  Applied to a row already in the terminal status
`canceled`, the runner's success transition `mark_job_succeeded` (and
likewise `mark_job_running`) overwrites the status. -/
theorem C2_counterexample :
    job_is_terminal canceledJob.status = true ∧
    (get_job (mark_job_succeeded [canceledJob] "job-c1" none none 5)
      "job-c1").map JobRecord.status = some .succeeded ∧
    (get_job (mark_job_running [canceledJob] "job-c1" "integrations-worker" 5)
      "job-c1").map JobRecord.status = some .running := by
  refine ⟨rfl, rfl, rfl⟩

/-- C2 (amended): terminal statuses are protected only by the Worker
Runner's initial check, which skips a job loaded in a terminal status
without applying any transition; the store-level transition operations
themselves do not consult the current status, so one invoked on a terminal
row (such as the final transition racing an external cancel) overwrites
it. -/
theorem C2_terminal_guard_only_at_load (settings : Settings)
    (sem : HandlerSem) (db : JobsDb) (job_id worker : String) (now : Int)
    (job : JobRecord) (hjob : get_job db job_id = some job)
    (hterm : job_is_terminal job.status = true) :
    _run_job settings sem db job_id now = (.skipped_terminal, db) ∧
    get_job (mark_job_running db job_id worker now) job_id =
      some { job with
             status := .running
             locked_at := some now
             locked_by := some worker
             run_after := none
             last_error := none
             updated_at := now } := by
  constructor
  · unfold _run_job
    rw [hjob]
    simp [hterm]
  · unfold mark_job_running
    rw [get_job_mark_job_self db job_id _ now job (by rfl) hjob]
    rfl

/-- Witness for C2 at a concrete input: the runner skips the canceled job,
and a direct `mark_job_running` on the same row overwrites it. -/
theorem C2_terminal_guard_only_at_load_witness :
    _run_job {} (fun _ _ _ => .success Json.null) [canceledJob] "job-c1" 5 =
      (.skipped_terminal, [canceledJob]) ∧
    get_job (mark_job_running [canceledJob] "job-c1" "w1" 5) "job-c1" =
      some { canceledJob with
             status := .running
             locked_at := some 5
             locked_by := some "w1"
             run_after := none
             last_error := none
             updated_at := 5 } :=
  C2_terminal_guard_only_at_load {} (fun _ _ _ => .success Json.null)
    [canceledJob] "job-c1" "w1" 5 canceledJob rfl rfl

/-! Claim C3: recording of handler results on success. -/

/-- A registered-type queued job whose handler will return a result value. -/
def resultJob : JobRecord :=
  { id := "job-s1"
    type := "process_webhook_event"
    status := .queued
    payload := Json.obj [("args", Json.arr [Json.str "github"]), ("kwargs", Json.obj [])]
    idempotency_key := none
    attempts := 0
    max_attempts := 8
    run_after := none
    locked_at := none
    locked_by := none
    last_error := none
    created_at := 0
    updated_at := 0 }

/-- Counterexample to C3 as stated: the handler returns the value
`"handler-result"`, the run succeeds, yet the payload holds no `result`
key afterwards — a subsequent job-status read returns no result, because
`_run_job` discards the handler's return value and calls
`mark_job_succeeded` without a result argument. -/
theorem C3_counterexample :
    (_run_job {} (fun _ _ _ => .success (Json.str "handler-result"))
      [resultJob] "job-s1" 7).fst = .succeeded ∧
    (get_job (_run_job {} (fun _ _ _ => .success (Json.str "handler-result"))
      [resultJob] "job-s1" 7).snd "job-s1").map job_status_result = some none := by
  refine ⟨rfl, rfl⟩

/-- C3 (amended): `mark_job_succeeded(id, result)` does merge a supplied
result into the supplied base payload under the `result` key; but the
worker runner's success transition passes no result, so the job's payload
is unchanged by a successful run and a subsequent status read reports the
pre-existing payload, not the handler's return value. -/
theorem C3_runner_discards_handler_result (settings : Settings)
    (sem : HandlerSem) (db : JobsDb) (job_id : String) (now : Int)
    (job : JobRecord) (r : Json) (base : Option (List (String × Json)))
    (args : List Json) (kwargs : List (String × Json))
    (hjob : get_job db job_id = some job) :
    (get_job (mark_job_succeeded db job_id (some r) base now) job_id =
      some { job with
             status := .succeeded
             payload := Json.obj (setEntry (base.getD []) "result" r)
             locked_at := none
             locked_by := none
             run_after := none
             last_error := none
             updated_at := now }) ∧
    (job.status = .queued → job.type ∈ _HANDLERS →
      _extract_call_args job = .ok (args, kwargs) →
      sem job.type args kwargs = .success r →
      (_run_job settings sem db job_id now).fst = .succeeded ∧
      get_job (_run_job settings sem db job_id now).snd job_id =
        some { job with
               status := .succeeded
               payload := job.payload
               locked_at := none
               locked_by := none
               run_after := none
               last_error := none
               updated_at := now }) := by
  constructor
  · unfold mark_job_succeeded
    rw [get_job_mark_job_self db job_id _ now job (by rfl) hjob]
    rfl
  · intro hq hmem hargs hsem
    have hid : job.id = job_id := get_job_eq_id db job_id job hjob
    have hrun : _run_job settings sem db job_id now =
        (.succeeded, mark_job_succeeded
          (mark_job_running db job_id settings.worker_name now) job_id none none now) := by
      unfold _run_job
      rw [hjob]
      simp [hq, hmem, hargs, hsem, job_is_terminal]
    rw [hrun]
    refine ⟨rfl, ?_⟩
    have hrow : get_job (mark_job_running db job_id settings.worker_name now) job_id =
        some (applyJobUpdate now
          { status := some .running
            locked_at := some (some now)
            locked_by := some (some settings.worker_name)
            run_after := some none
            last_error := some none } job) := by
      unfold mark_job_running
      exact get_job_mark_job_self db job_id _ now job (by rfl) hjob
    unfold mark_job_succeeded
    rw [get_job_mark_job_self _ job_id _ now _ (by rfl) hrow]
    rfl

/-- C6 (amended): on a handler failure with `next_attempts < max_attempts`,
the scheduled delay is `min(max(1, base) * 2^(next_attempts - 1), cap)`
seconds — the code clamps the configured base to at least 1 — the runner
requests redelivery after that many milliseconds, and the job row is
rescheduled with `run_after = now + delay`, the incremented attempt count,
and the formatted error string. -/
theorem C6_retry_backoff (settings : Settings) (sem : HandlerSem)
    (db : JobsDb) (job_id : String) (now : Int) (job : JobRecord)
    (args : List Json) (kwargs : List (String × Json)) (kind msg : String)
    (hjob : get_job db job_id = some job)
    (hq : job.status = .queued)
    (hmem : job.type ∈ _HANDLERS)
    (hargs : _extract_call_args job = .ok (args, kwargs))
    (hsem : sem job.type args kwargs = .raises kind msg)
    (hlt : job.attempts + 1 < job.max_attempts) :
    (_run_job settings sem db job_id now).fst =
      .retry_scheduled
        { job_id := job_id
          delay_ms := min (max 1 settings.job_retry_base_seconds *
            2 ^ (job.attempts + 1 - 1)) settings.job_retry_max_seconds * 1000 } ∧
    get_job (_run_job settings sem db job_id now).snd job_id =
      some { job with
             status := .failed
             attempts := job.attempts + 1
             run_after := some (now + min (max 1 settings.job_retry_base_seconds *
               2 ^ (job.attempts + 1 - 1)) settings.job_retry_max_seconds)
             last_error := some (kind ++ ": " ++ msg)
             locked_at := none
             locked_by := none
             updated_at := now } := by
  have hid : job.id = job_id := get_job_eq_id db job_id job hjob
  have hnotle : ¬ job.max_attempts ≤ job.attempts + 1 := Nat.not_le.mpr hlt
  have hrun : _run_job settings sem db job_id now =
      _handle_job_failure settings job
        (mark_job_running db job_id settings.worker_name now) kind msg now := by
    unfold _run_job
    rw [hjob]
    simp [hq, hmem, hargs, hsem, job_is_terminal]
  have hrow : get_job (mark_job_running db job_id settings.worker_name now) job_id =
      some (applyJobUpdate now
        { status := some .running
          locked_at := some (some now)
          locked_by := some (some settings.worker_name)
          run_after := some none
          last_error := some none } job) := by
    unfold mark_job_running
    exact get_job_mark_job_self db job_id _ now job (by rfl) hjob
  rw [hrun]
  unfold _handle_job_failure
  rw [if_neg hnotle]
  unfold _schedule_retry _compute_retry_delay_seconds
  constructor
  · rw [hid]
  · rw [hid]
    unfold mark_job_retry
    rw [get_job_mark_job_self _ job_id _ now _ (by rfl) hrow]
    simp [applyJobUpdate, hid]

/-- Witness for C6 at a concrete input: default settings (base 5, cap 300),
a first failure of a fresh job yields a 5 second delay, a 5000 ms
redelivery, and `run_after = now + 5`. -/
theorem C6_retry_backoff_witness :
    (_run_job {} (fun _ _ _ => .raises "RuntimeError" "boom")
      [resultJob] "job-s1" 20).fst =
      .retry_scheduled { job_id := "job-s1", delay_ms := 5000 } ∧
    get_job (_run_job {} (fun _ _ _ => .raises "RuntimeError" "boom")
      [resultJob] "job-s1" 20).snd "job-s1" =
      some { resultJob with
             status := .failed
             attempts := 1
             run_after := some 25
             last_error := some "RuntimeError: boom"
             locked_at := none
             locked_by := none
             updated_at := 20 } := by
  have h := C6_retry_backoff {} (fun _ _ _ => .raises "RuntimeError" "boom")
    [resultJob] "job-s1" 20 resultJob [Json.str "github"] [] "RuntimeError" "boom"
    rfl rfl (by decide) rfl rfl (by decide)
  exact ⟨h.1, h.2⟩

/-- Witness for C3: on a concrete job with a concrete handler result,
`mark_job_succeeded` with a result merges it, while the actual runner run
leaves the payload unchanged. -/
theorem C3_runner_discards_handler_result_witness :
    (get_job (mark_job_succeeded [resultJob] "job-s1" (some (Json.str "v")) none 7)
      "job-s1" =
      some { resultJob with
             status := .succeeded
             payload := Json.obj (setEntry [] "result" (Json.str "v"))
             locked_at := none
             locked_by := none
             run_after := none
             last_error := none
             updated_at := 7 }) ∧
    ((_run_job {} (fun _ _ _ => .success (Json.str "v")) [resultJob] "job-s1" 7).fst =
        .succeeded ∧
      get_job (_run_job {} (fun _ _ _ => .success (Json.str "v"))
        [resultJob] "job-s1" 7).snd "job-s1" =
        some { resultJob with
               status := .succeeded
               payload := resultJob.payload
               locked_at := none
               locked_by := none
               run_after := none
               last_error := none
               updated_at := 7 }) := by
  have h := C3_runner_discards_handler_result {}
    (fun _ _ _ => .success (Json.str "v")) [resultJob] "job-s1" 7 resultJob
    (Json.str "v") none [Json.str "github"] [] rfl
  exact ⟨h.1, h.2 rfl (by decide) rfl rfl⟩

/-! Claim C7: the lock fields are populated exactly while the job runs. -/

/-- Mapping a property-preserving function over a list keeps the row-wise
`all`. -/
theorem all_map_of_imp {α : Type} (p : α → Bool) (f : α → α) (l : List α)
    (h : l.all p = true) (hf : ∀ a, p a = true → p (f a) = true) :
    (l.map f).all p = true := by
  rw [List.all_eq_true] at h ⊢
  intro b hb
  rw [List.mem_map] at hb
  obtain ⟨a, ha, rfl⟩ := hb
  exact hf a (h a ha)

/-- A `_mark_job` UPDATE keeps a row-wise property as long as the applied
column assignment does. -/
theorem _mark_job_all (p : JobRecord → Bool) (db : JobsDb) (jid : String)
    (u : JobUpdate) (now : Int) (h : db.all p = true)
    (hu : ∀ row, p row = true → p (applyJobUpdate now u row) = true) :
    (_mark_job db jid u now).all p = true := by
  unfold _mark_job
  split
  · exact h
  · refine all_map_of_imp p _ db h (fun a ha => ?_)
    by_cases hid : a.id = jid
    · rw [if_pos hid]; exact hu a ha
    · rw [if_neg hid]; exact ha

/-- An insert accepted by `create_job_record` either reuses the table as is
(idempotent duplicate) or appends one freshly queued, unlocked row. -/
theorem create_job_record_ok_db (settings : Settings) (db : JobsDb)
    (jid jt : String) (p : Json) (key : Option String) (ma : Option Nat)
    (ra : Option Int) (now : Int) (r : String × Bool × JobsDb)
    (h : create_job_record settings db jid jt p key ma ra now = .ok r) :
    r.snd.snd = db ∨
    ∃ row, r.snd.snd = db ++ [row] ∧ row.status = .queued ∧
      row.locked_at = none ∧ row.locked_by = none := by
  simp only [create_job_record] at h
  split at h
  · split at h
    · exact absurd h (by simp)
    · split at h
      · cases h
        exact Or.inl rfl
      · exact absurd h (by simp)
  · split at h
    · exact absurd h (by simp)
    · cases h
      exact Or.inr ⟨_, rfl, rfl, rfl, rfl⟩

/-- Every single store write preserves lock-field consistency of all rows. -/
theorem applyStoreOp_preserves_lock_consistency (settings : Settings)
    (db : JobsDb) (op : StoreOp)
    (h : db.all lock_fields_consistent = true) :
    (applyStoreOp settings db op).all lock_fields_consistent = true := by
  cases op with
  | create jid jt p key ma ra now =>
    unfold applyStoreOp
    rcases hc : create_job_record settings db jid jt p key ma ra now with e | r
    · simpa [hc] using h
    · simp only [hc]
      rcases create_job_record_ok_db settings db jid jt p key ma ra now r hc with
        hdb | ⟨row, hdb, hst, hla, hlb⟩
      · rw [hdb]; exact h
      · rw [hdb, List.all_append]
        simp only [h, Bool.true_and, List.all_cons, List.all_nil, Bool.and_true]
        simp [lock_fields_consistent, hst, hla, hlb]
  | mark_running jid w now =>
    unfold applyStoreOp mark_job_running
    exact _mark_job_all _ db jid _ now h (fun row hrow => rfl)
  | mark_succeeded jid res base now =>
    unfold applyStoreOp mark_job_succeeded
    exact _mark_job_all _ db jid _ now h (fun row hrow => rfl)
  | mark_retry jid a ra e now =>
    unfold applyStoreOp mark_job_retry
    exact _mark_job_all _ db jid _ now h (fun row hrow => rfl)
  | mark_dead jid a e now =>
    unfold applyStoreOp mark_job_dead
    exact _mark_job_all _ db jid _ now h (fun row hrow => rfl)

/-- C7: in every job table reachable from an empty table through the store's
write operations, each row has `locked_by` and `locked_at` populated
exactly when its status is `running`: `mark_job_running` sets status and
both lock fields together, and every transition out of `running` clears
both. -/
theorem C7_lock_fields_iff_running (settings : Settings) (ops : List StoreOp) :
    (applyStoreOps settings [] ops).all lock_fields_consistent = true := by
  have key : ∀ (l : List StoreOp) (db : JobsDb),
      db.all lock_fields_consistent = true →
      (applyStoreOps settings db l).all lock_fields_consistent = true := by
    intro l
    induction l with
    | nil => exact fun db h => h
    | cons op rest ih =>
      exact fun db h =>
        ih (applyStoreOp settings db op)
          (applyStoreOp_preserves_lock_consistency settings db op h)
  exact key ops [] rfl

/-! Claim C4: idempotent enqueue dispatches the broker exactly once. -/

/-- When the filter by a predicate leaves a single row, `find?` returns that
row. -/
theorem filter_eq_single_find? {α : Type} (p : α → Bool) (l : List α) (a : α)
    (h : l.filter p = [a]) : l.find? p = some a := by
  induction l with
  | nil => simp at h
  | cons x t ih =>
    by_cases hx : p x
    · rw [List.filter_cons_of_pos hx] at h
      obtain ⟨rfl, -⟩ := List.cons_eq_cons.mp h
      exact List.find?_cons_of_pos _ hx
    · rw [List.filter_cons_of_neg (Bool.eq_false_iff.mpr hx ▸ hx)] at h
      rw [List.find?_cons_of_neg _ hx]
      exact ih h

/-- When the filter by a predicate leaves a row, `any` holds. -/
theorem filter_eq_single_any {α : Type} (p : α → Bool) (l : List α) (a : α)
    (h : l.filter p = [a]) : l.any p = true := by
  have ha : a ∈ l.filter p := by rw [h]; exact List.mem_singleton_self a
  rw [List.mem_filter] at ha
  exact List.any_eq_true.mpr ⟨a, ha.1, ha.2⟩

/-- Once a row with the shared idempotency key exists, every further call of
the sequence reuses its id without touching the table or the broker. -/
theorem enqueue_seq_duplicates (settings : Settings) (k : String)
    (calls : List EnqueueCall) (db : JobsDb) (q : QueueState)
    (row : JobRecord)
    (hfilter : db.filter (fun r => r.idempotency_key == some k) = [row]) :
    enqueue_seq settings (some k) calls db q =
      (calls.map (fun _ => .ok { id := row.id, created := false }), db, q) := by
  induction calls with
  | nil => rfl
  | cons c rest ih =>
    have hany : db.any (fun r => r.idempotency_key == some k) = true :=
      filter_eq_single_any _ db row hfilter
    have hfind : db.find? (fun r => r.idempotency_key == some k) = some row :=
      filter_eq_single_find? _ db row hfilter
    unfold enqueue_seq enqueue_job create_job_record
    simp only [hany, hfind, if_true]
    simp [ih]

/-- The row inserted by `create_job_record` for call `c` under idempotency
key `k` (the VALUES tuple of the INSERT). -/
def createdJobRow (settings : Settings) (k : String) (c : EnqueueCall) :
    JobRecord :=
  { id := c.job_id
    type := c.fn_name
    status := .queued
    payload := Json.obj [("args", Json.arr c.args), ("kwargs", Json.obj c.kwargs)]
    idempotency_key := some k
    attempts := 0
    max_attempts := match c.max_attempts with
      | none => settings.job_max_attempts
      | some m => if m = 0 then settings.job_max_attempts else m
    run_after := c.run_after
    locked_at := none
    locked_by := none
    last_error := none
    created_at := c.now
    updated_at := c.now }

/-- An enqueue call with key `k` against a table not holding that key
inserts exactly `createdJobRow`. -/
theorem create_job_record_fresh (settings : Settings) (k : String)
    (c : EnqueueCall) (db : JobsDb)
    (hkeyAny : db.any (fun r => r.idempotency_key == some k) = false)
    (hidAny : db.any (fun r => r.id == c.job_id) = false) :
    create_job_record settings db c.job_id c.fn_name
      (Json.obj [("args", Json.arr c.args), ("kwargs", Json.obj c.kwargs)])
      (some k) c.max_attempts c.run_after c.now =
      .ok (c.job_id, true, db ++ [createdJobRow settings k c]) := by
  unfold create_job_record createdJobRow
  simp [hkeyAny, hidAny]

/-- C4: for a sequence of enqueue calls all supplying the same idempotency
key against a table without that key, exactly one row with the key exists
afterwards, every call returns that row's id (the first `created`, the
rest not), and the broker receives exactly one dispatch, issued by the
creating call. -/
theorem C4_idempotent_enqueue_single_dispatch (settings : Settings)
    (k : String) (first : EnqueueCall) (rest : List EnqueueCall)
    (db : JobsDb) (q : QueueState)
    (hkey : db.all (fun r => !(r.idempotency_key == some k)) = true)
    (hfresh : db.all (fun r => !(r.id == first.job_id)) = true) :
    enqueue_seq settings (some k) (first :: rest) db q =
      (.ok { id := first.job_id, created := true } ::
        rest.map (fun _ => .ok { id := first.job_id, created := false }),
       db ++ [createdJobRow settings k first],
       q.enqueue first.job_id first.run_after) ∧
    (db ++ [createdJobRow settings k first]).filter
      (fun r => r.idempotency_key == some k) = [createdJobRow settings k first] ∧
    (createdJobRow settings k first).id = first.job_id ∧
    (createdJobRow settings k first).idempotency_key = some k ∧
    (createdJobRow settings k first).status = .queued := by
  have hkeyAny : db.any (fun r => r.idempotency_key == some k) = false := by
    rw [List.any_eq_false]
    intro r hr
    simpa using List.all_eq_true.mp hkey r hr
  have hidAny : db.any (fun r => r.id == first.job_id) = false := by
    rw [List.any_eq_false]
    intro r hr
    simpa using List.all_eq_true.mp hfresh r hr
  have hkeyNil : db.filter (fun r => r.idempotency_key == some k) = [] := by
    rw [List.filter_eq_nil_iff]
    intro r hr
    simpa using List.all_eq_true.mp hkey r hr
  have hfilter2 : (db ++ [createdJobRow settings k first]).filter
      (fun r => r.idempotency_key == some k) = [createdJobRow settings k first] := by
    rw [List.filter_append, hkeyNil]
    simp [createdJobRow]
  refine ⟨?_, hfilter2, rfl, rfl, rfl⟩
  have hcreate := create_job_record_fresh settings k first db hkeyAny hidAny
  unfold enqueue_seq enqueue_job
  simp only [hcreate, if_true, enqueue_seq_duplicates settings k rest
    (db ++ [createdJobRow settings k first])
    (q.enqueue first.job_id first.run_after)
    (createdJobRow settings k first) hfilter2]
  rfl

/-- A first concrete enqueue call under key `"example:evt-1"`. -/
def exCall1 : EnqueueCall :=
  { fn_name := "process_webhook_event", args := [Json.str "example"],
    kwargs := [], job_id := "uuid-1", now := 0 }

/-- A duplicate concrete enqueue call under the same key. -/
def exCall2 : EnqueueCall :=
  { fn_name := "process_webhook_event", args := [Json.str "example"],
    kwargs := [], job_id := "uuid-2", now := 1 }

/-- Witness for C4 at concrete inputs: two calls sharing a key yield one
row, the same id twice (`created` only once), and one broker dispatch. -/
theorem C4_idempotent_enqueue_single_dispatch_witness :
    enqueue_seq {} (some "example:evt-1") [exCall1, exCall2] [] {} =
      (.ok { id := "uuid-1", created := true } ::
        [exCall2].map (fun _ => .ok { id := "uuid-1", created := false }),
       [] ++ [createdJobRow {} "example:evt-1" exCall1],
       QueueState.enqueue {} "uuid-1" none) ∧
    ([] ++ [createdJobRow {} "example:evt-1" exCall1]).filter
      (fun r => r.idempotency_key == some "example:evt-1") =
      [createdJobRow {} "example:evt-1" exCall1] ∧
    (createdJobRow {} "example:evt-1" exCall1).id = "uuid-1" ∧
    (createdJobRow {} "example:evt-1" exCall1).idempotency_key =
      some "example:evt-1" ∧
    (createdJobRow {} "example:evt-1" exCall1).status = .queued :=
  C4_idempotent_enqueue_single_dispatch {} "example:evt-1" exCall1 [exCall2]
    [] {} rfl rfl

/-! Claim C8: an OIDC state value completes the callback at most once. -/

/-- Deleting a key removes every binding of it. -/
theorem storeLookup_storeDelete {α : Type} (entries : List (String × α))
    (key : String) : storeLookup (storeDelete entries key) key = none := by
  unfold storeLookup storeDelete
  induction entries with
  | nil => rfl
  | cons kv rest ih =>
    by_cases h : kv.fst = key
    · simp only [List.filter_cons]
      rw [if_neg (by simp [h])]
      exact ih
    · simp only [List.filter_cons]
      rw [if_pos (by simp [h])]
      rw [List.find?_cons_of_neg _ (by simp [h])]
      exact ih

/-- C8: when a pending entry exists for state `s` and a first callback
carrying `s` runs (with any code and any continuation behaviour), the
atomic get-and-delete consumes the entry; a second callback presenting the
same `s` finds no persisted entry, is rejected with `invalid_state`
(HTTP 400), and creates no session. -/
theorem C8_oidc_state_single_use (rest1 rest2 : CallbackRest)
    (store : AuthStore) (s : String) (p : PendingOIDCState)
    (c1 c2 : Option String)
    (hc1 : c1.getD "" ≠ "") (hc2 : c2.getD "" ≠ "") (hs : s ≠ "")
    (hfound : storeLookup store.oidc_states (_oidc_state_key s) = some p) :
    (pop_oidc_state
        (auth_callback_handler true true rest1 store c1 (some s)).store s).fst =
      none ∧
    (auth_callback_handler true true rest2
        (auth_callback_handler true true rest1 store c1 (some s)).store
        c2 (some s)).response = .error_response 400 "invalid_state" ∧
    (auth_callback_handler true true rest2
        (auth_callback_handler true true rest1 store c1 (some s)).store
        c2 (some s)).session_created = false := by
  set F := auth_callback_handler true true rest1 store c1 (some s) with hF
  have hstates : F.store.oidc_states =
      storeDelete store.oidc_states (_oidc_state_key s) := by
    rw [hF]
    unfold auth_callback_handler pop_oidc_state
    rw [if_neg (by simp [hc1, hs])]
    simp [hfound]
  have hpop2 : pop_oidc_state F.store s = (none, F.store) := by
    unfold pop_oidc_state
    rw [hstates]
    simp [storeLookup_storeDelete]
  refine ⟨by rw [hpop2], ?_, ?_⟩
  · unfold auth_callback_handler
    rw [if_neg (by simp [hc2, hs])]
    simp [hpop2]
  · unfold auth_callback_handler
    rw [if_neg (by simp [hc2, hs])]
    simp [hpop2]

/-- A concrete pending login state. -/
def exPendingState : PendingOIDCState :=
  { nonce := "nonce-1", code_verifier := "verifier-1", next_path := "/dashboard" }

/-- A concrete auth store holding one pending OIDC state for `"state-1"`. -/
def exAuthStore : AuthStore :=
  { oidc_states := [(_oidc_state_key "state-1", exPendingState)] }

/-- A continuation standing for a first callback that completes login. -/
def exCallbackRest : CallbackRest :=
  fun _ sessions links => (.redirect "/dashboard", sessions, links, true)

/-- Witness for C8 at concrete inputs: after one callback consumes
`"state-1"`, a replayed callback with the same state is rejected. -/
theorem C8_oidc_state_single_use_witness :
    (pop_oidc_state
        (auth_callback_handler true true exCallbackRest exAuthStore
          (some "code-1") (some "state-1")).store "state-1").fst = none ∧
    (auth_callback_handler true true exCallbackRest
        (auth_callback_handler true true exCallbackRest exAuthStore
          (some "code-1") (some "state-1")).store
        (some "code-2") (some "state-1")).response =
      .error_response 400 "invalid_state" ∧
    (auth_callback_handler true true exCallbackRest
        (auth_callback_handler true true exCallbackRest exAuthStore
          (some "code-1") (some "state-1")).store
        (some "code-2") (some "state-1")).session_created = false :=
  C8_oidc_state_single_use exCallbackRest exCallbackRest exAuthStore "state-1"
    exPendingState (some "code-1") (some "code-2") (by decide) (by decide)
    (by decide) rfl

/-! Claim C10: keyless enqueues always create and always dispatch. -/

/-- C10: with `idempotency_key = None` the conflict clause can never fire
(a NULL key conflicts with nothing), so as long as the freshly drawn uuid
is new, `create_job_record` inserts a fresh row and returns
`(new id, was_created = true)` — the keyless error branch is unreachable —
and `enqueue_job` dispatches the broker on every such call: keyless
enqueues are never deduplicated. -/
theorem C10_keyless_enqueue_always_creates (settings : Settings) (db : JobsDb)
    (q : QueueState) (fn : String) (args : List Json)
    (kwargs : List (String × Json)) (ma : Option Nat) (ra : Option Int)
    (jid : String) (now : Int)
    (hfresh : db.all (fun row => !(row.id == jid)) = true) :
    enqueue_job settings db q fn args kwargs none ma ra jid now =
      .ok ({ id := jid, created := true },
        db ++ [{ id := jid
                 type := fn
                 status := .queued
                 payload := Json.obj [("args", Json.arr args),
                   ("kwargs", Json.obj kwargs)]
                 idempotency_key := none
                 attempts := 0
                 max_attempts := match ma with
                   | none => settings.job_max_attempts
                   | some m => if m = 0 then settings.job_max_attempts else m
                 run_after := ra
                 locked_at := none
                 locked_by := none
                 last_error := none
                 created_at := now
                 updated_at := now }],
        q.enqueue jid ra) := by
  have hany : db.any (fun row => row.id == jid) = false := by
    rw [List.any_eq_false]
    intro r hr
    simpa using List.all_eq_true.mp hfresh r hr
  unfold enqueue_job create_job_record
  simp [hany]

/-- Witness for C10 at a concrete input: a keyless enqueue into an empty
table creates the row and dispatches the broker. -/
theorem C10_keyless_enqueue_always_creates_witness :
    enqueue_job {} [] {} "process_webhook_event" [] [] none none none
        "id-9" 3 =
      .ok ({ id := "id-9", created := true },
        [{ id := "id-9"
           type := "process_webhook_event"
           status := .queued
           payload := Json.obj [("args", Json.arr []), ("kwargs", Json.obj [])]
           idempotency_key := none
           attempts := 0
           max_attempts := 8
           run_after := none
           locked_at := none
           locked_by := none
           last_error := none
           created_at := 3
           updated_at := 3 }],
        QueueState.enqueue {} "id-9" none) :=
  C10_keyless_enqueue_always_creates {} [] {} "process_webhook_event" [] []
    none none "id-9" 3 rfl

end Five08
